import Mathlib

/-!
Verification of the session-identifier normalizer, the target resolver and the
color parser of the `it2` command-line client, as a shallow embedding of
`src/it2/core/session_handler.py`, `src/it2/commands/profile.py` and
`src/it2/commands/app.py`.
-/

namespace It2

/-- One terminal pane of the host application, carrying its identifier string. -/
structure Session where
  sessionId : String
deriving DecidableEq, Repr

/-- A tab of the host application: an ordered list of sessions plus the
host's notion of the current session of that tab. -/
structure Tab where
  sessions : List Session
  current_session : Option Session
deriving DecidableEq, Repr

/-- A window of the host application: ordered tabs plus the current tab. -/
structure Window where
  tabs : List Tab
  current_tab : Option Tab
deriving DecidableEq, Repr

/-- The host application handle: ordered windows plus the current terminal window. -/
structure App where
  windows : List Window
  current_terminal_window : Option Window
deriving DecidableEq, Repr

/-- Every session of the hierarchy in window order, then tab order, then session order. -/
def App.allSessions (app : App) : List Session :=
  app.windows.flatMap fun w => w.tabs.flatMap fun t => t.sessions

/-- Host API accessor `app.get_session_by_id` of the external iterm2 library:
the first session of the hierarchy whose identifier equals the query. -/
def App.get_session_by_id (app : App) (sid : String) : Option Session :=
  app.allSessions.find? fun s => s.sessionId == sid

/-- The character class `[0-9A-Fa-f]` of `_UUID_PATTERN` in core/session_handler.py. -/
def isHexDigit (c : Char) : Bool :=
  c.isDigit || ('a' ≤ c && c ≤ 'f') || ('A' ≤ c && c ≤ 'F')

/-- Consume exactly `n` hexadecimal characters, the regex fragment `[0-9A-Fa-f]{n}`. -/
def takeHex : Nat → List Char → Option (List Char)
  | 0, cs => some cs
  | _ + 1, [] => none
  | n + 1, c :: cs => if isHexDigit c then takeHex n cs else none

/-- Consume one fixed character. -/
def expectChar (a : Char) : List Char → Option (List Char)
  | [] => none
  | c :: cs => if c = a then some cs else none

/-- The anchored UUID pattern `_UUID_PATTERN` of core/session_handler.py:
eight-four-four-four-twelve hexadecimal groups separated by hyphens.
Returns the input remaining after the 36 matched characters. -/
def matchUUID (cs : List Char) : Option (List Char) :=
  ((((((((takeHex 8 cs).bind (expectChar '-')).bind (takeHex 4)).bind
    (expectChar '-')).bind (takeHex 4)).bind (expectChar '-')).bind
    (takeHex 4)).bind (expectChar '-')).bind (takeHex 12)

/-- Consume one or more decimal digits greedily, the regex fragment `\d+`
(ASCII digits; the claims only exercise ASCII inputs). -/
def takeDigits1 : List Char → Option (List Char)
  | [] => none
  | c :: cs => if c.isDigit then some (cs.dropWhile Char.isDigit) else none

/-- Match `^w\d+t\d+p\d+<sep>(uuid)$` against a whole string and return the
captured uuid group. With `sep = ':'` this is `_ITERM_SESSION_ID_RE`, with
`sep = '.'` it is `_TERMID_RE` of core/session_handler.py. Python's `$` also
matches just before a single newline at the very end of the input, hence the
second success branch. -/
def matchAliasUUID (sep : Char) (s : String) : Option String :=
  (((((((expectChar 'w' s.data).bind takeDigits1).bind (expectChar 't')).bind
      takeDigits1).bind (expectChar 'p')).bind takeDigits1).bind (expectChar sep)).bind
    fun rest =>
      match matchUUID rest with
      | some [] => some (String.mk rest)
      | some [c] => if c = Char.ofNat 10 then some (String.mk rest.dropLast) else none
      | _ => none

/-- `normalize_session_id` from core/session_handler.py. -/
def normalize_session_id : Option String → Option String
  | none => none
  | some sid =>
    if sid = "active" ∨ sid = "all" then some sid
    else
      match matchAliasUUID ':' sid with
      | some u => some u
      | none =>
        match matchAliasUUID '.' sid with
        | some u => some u
        | none => some sid

/-- `get_session_by_id` from core/session_handler.py: look up by the normalized
identifier first, then fall back once to the original input when it differs. -/
def get_session_by_id (app : App) (session_id : Option String) : Option Session :=
  match session_id with
  | none => none
  | some sid =>
    match normalize_session_id (some sid) with
    | none => none
    | some normalized =>
      match app.get_session_by_id normalized with
      | some s => some s
      | none =>
        if normalized ≠ sid then app.get_session_by_id sid else none

/-- The identifiers passed to the host accessor `App.get_session_by_id` by
`get_session_by_id`, in call order, following the same control flow. -/
def get_session_by_id_queries (app : App) (session_id : Option String) : List String :=
  match session_id with
  | none => []
  | some sid =>
    match normalize_session_id (some sid) with
    | none => []
    | some normalized =>
      match app.get_session_by_id normalized with
      | some _ => [normalized]
      | none => if normalized ≠ sid then [normalized, sid] else [normalized]

/-- A fatal CLI failure: the message printed to stderr and the process exit code. -/
structure CliError where
  message : String
  exitCode : Nat
deriving DecidableEq, Repr

/-- The single-quote character, used when formatting error messages. -/
def sq : String := String.singleton (Char.ofNat 39)

/-- Python truthiness of an optional string: `None` and the empty string are falsy. -/
def strTruthy : Option String → Bool
  | none => false
  | some s => s != ""

/-- `get_target_sessions` from core/session_handler.py. The `sys.exit(3)` paths
become `Except.error` values carrying the stderr message and the exit code. -/
def get_target_sessions (app : App) (session_id : Option String)
    (all_sessions : Bool) : Except CliError (List Session) :=
  if all_sessions ∨ session_id = some "all" then
    Except.ok
      (app.windows.foldl (fun acc w => w.tabs.foldl (fun acc2 t => acc2 ++ t.sessions) acc) [])
  else if strTruthy session_id ∧ session_id ≠ some "active" then
    match get_session_by_id app session_id with
    | none =>
      Except.error
        ⟨"Error: Session " ++ sq ++ session_id.getD "" ++ sq ++ " not found", 3⟩
    | some s => Except.ok [s]
  else
    match app.current_terminal_window with
    | none => Except.error ⟨"Error: No active window found", 3⟩
    | some w =>
      match w.current_tab with
      | none => Except.error ⟨"Error: No active tab found", 3⟩
      | some t =>
        match t.current_session with
        | none => Except.error ⟨"Error: No active session found", 3⟩
        | some s => Except.ok [s]

/-- Modelled from the spec: `handle_error` from core/errors.py, which is not among
the provided sources. Per the spec, every error is surfaced as a terminal,
user-visible message together with the matching exit code. -/
def handle_error (message : String) (code : Nat) : CliError :=
  ⟨message, code⟩

/-- The session-targeting logic of the `profile apply` command
(commands/profile.py): a supplied `--session` value is passed directly to the
host accessor `app.get_session_by_id`, with no normalization; without one the
current window, tab and session are walked. -/
def profile_apply_target (app : App) (session : Option String) : Except CliError Session :=
  if strTruthy session then
    match app.get_session_by_id (session.getD "") with
    | none =>
      Except.error (handle_error ("Session " ++ sq ++ session.getD "" ++ sq ++ " not found") 3)
    | some s => Except.ok s
  else
    match app.current_terminal_window with
    | none => Except.error (handle_error "No current window" 3)
    | some w =>
      match w.current_tab with
      | none => Except.error (handle_error "No current tab" 3)
      | some t =>
        match t.current_session with
        | none => Except.error (handle_error "No current session" 3)
        | some s => Except.ok s

/-- A color as constructed by `iterm2.Color(r, g, b)`; the components are the
integers the parser produced (the constructor applies no validation relevant here). -/
structure Color where
  r : Int
  g : Int
  b : Int
deriving DecidableEq, Repr

/-- Numeric value of a hexadecimal digit character. -/
def hexVal (c : Char) : Nat :=
  if c.isDigit then c.toNat - 48
  else if 'a' ≤ c && c ≤ 'f' then c.toNat - 87
  else c.toNat - 55

/-- Python whitespace characters in the ASCII range, as stripped by `int(s, 16)`. -/
def isPySpace (c : Char) : Bool :=
  c.toNat == 32 || (9 ≤ c.toNat && c.toNat ≤ 13) || (28 ≤ c.toNat && c.toNat ≤ 31)

/-- Python's `int(s, 16)` restricted to two-character ASCII strings: two hex
digits, or one hex digit preceded by a sign, or one hex digit padded on either
side by one whitespace character; everything else raises ValueError. Non-ASCII
digit and space characters are outside this model. -/
def pyIntHex2 (c1 c2 : Char) : Option Int :=
  if isHexDigit c1 && isHexDigit c2 then some (16 * (hexVal c1 : Int) + (hexVal c2 : Int))
  else if c1 = '+' && isHexDigit c2 then some ((hexVal c2 : Int))
  else if c1 = '-' && isHexDigit c2 then some (-(hexVal c2 : Int))
  else if isPySpace c1 && isHexDigit c2 then some ((hexVal c2 : Int))
  else if isHexDigit c1 && isPySpace c2 then some ((hexVal c1 : Int))
  else none

/-- Python's `color_str.startswith("#")`: whether the first character is a hash. -/
def startsWithHash (s : String) : Bool :=
  match s.data with
  | [] => false
  | c :: _ => c = '#'

/-- Message of the ValueError raised by `int(s, 16)` on an unparseable literal. -/
def intErrMsg (s : String) : String :=
  "invalid literal for int() with base 16: " ++ sq ++ s ++ sq

/-- `_parse_color` from commands/profile.py. A raised ValueError is modelled as
`Except.error` carrying the exception message. -/
def _parse_color (color_str : String) : Except String Color :=
  let stripped := if startsWithHash color_str then color_str.drop 1 else color_str
  match stripped.data with
  | [a, b, c, d, e, f] =>
    match pyIntHex2 a b with
    | none => Except.error (intErrMsg (String.mk [a, b]))
    | some r =>
      match pyIntHex2 c d with
      | none => Except.error (intErrMsg (String.mk [c, d]))
      | some g =>
        match pyIntHex2 e f with
        | none => Except.error (intErrMsg (String.mk [e, f]))
        | some bl => Except.ok ⟨r, g, bl⟩
  | _ => Except.error ("Invalid color format: " ++ stripped)

/-- The set of inputs the claim says `_parse_color` accepts: after removing one
optional leading hash, six characters forming three two-digit hexadecimal
bytes, i.e. all six characters hexadecimal digits. -/
def claimHexColorForm (s : String) : Bool :=
  let stripped := if startsWithHash s then s.drop 1 else s
  stripped.length == 6 && stripped.data.all isHexDigit

/-- Acceptance per the amended claim: strip one optional leading hash, then
accept exactly the six-character remainders whose three two-character groups
each parse under base-16 integer parsing, yielding those components. -/
def amendedColorSpec (s : String) : Option Color :=
  let stripped := if startsWithHash s then s.drop 1 else s
  match stripped.data with
  | [a, b, c, d, e, f] => do
    let r ← pyIntHex2 a b
    let g ← pyIntHex2 c d
    let bl ← pyIntHex2 e f
    pure ⟨r, g, bl⟩
  | _ => none

/-- Forget the error payload of an `Except` result. -/
def exceptToOption : Except String Color → Option Color
  | Except.ok c => some c
  | Except.error _ => none

/-- A concrete session whose identifier is a bare UUID, for concrete evaluations. -/
def demoSession : Session :=
  ⟨"12345678-1234-5678-1234-567812345678"⟩

/-- A concrete tab holding only `demoSession`. -/
def demoTab : Tab :=
  ⟨[demoSession], some demoSession⟩

/-- A concrete hierarchy of one window, one tab and one session. -/
def demoApp : App :=
  ⟨[⟨[demoTab], some demoTab⟩], some ⟨[demoTab], some demoTab⟩⟩

/-- The environment-variable alias form of `demoSession`'s identifier. -/
def demoAlias : String :=
  "w0t0p0:12345678-1234-5678-1234-567812345678"

theorem string_mk_data (s : String) : String.mk s.data = s := by
  cases s
  rfl

theorem bind_some_elim {α β : Type} {x : Option α} {f : α → Option β} {b : β}
    (h : x.bind f = some b) : ∃ a, x = some a ∧ f a = some b :=
  Option.bind_eq_some.mp h

theorem expectChar_eq {a : Char} {cs r : List Char} (h : expectChar a cs = some r) :
    cs = a :: r := by
  cases cs with
  | nil => exact absurd h (by simp [expectChar])
  | cons c cs2 =>
    simp only [expectChar] at h
    split at h
    · rename_i hc
      obtain rfl := Option.some.inj h
      rw [hc]
    · exact absurd h (by simp)

theorem expectChar_cons_self (a : Char) (l : List Char) :
    expectChar a (a :: l) = some l := by
  simp [expectChar]

theorem expectChar_cons_ne {a c : Char} (l : List Char) (h : c ≠ a) :
    expectChar a (c :: l) = none := by
  simp [expectChar, h]

theorem takeHex_length :
    ∀ {n : Nat} {cs r : List Char}, takeHex n cs = some r → cs.length = n + r.length
  | 0, cs, r, h => by
    simp only [takeHex, Option.some.injEq] at h
    simp [h]
  | n + 1, [], r, h => by
    exact absurd h (by simp [takeHex])
  | n + 1, c :: cs, r, h => by
    simp only [takeHex] at h
    split at h
    · have ih := takeHex_length h
      simp only [List.length_cons, ih]
      omega
    · exact absurd h (by simp)

theorem matchUUID_length {cs r : List Char} (h : matchUUID cs = some r) :
    cs.length = 36 + r.length := by
  unfold matchUUID at h
  obtain ⟨b7, hc7, ht12⟩ := bind_some_elim h
  obtain ⟨b6, hc6, he4⟩ := bind_some_elim hc7
  obtain ⟨b5, hc5, ht43⟩ := bind_some_elim hc6
  obtain ⟨b4, hc4, he3⟩ := bind_some_elim hc5
  obtain ⟨b3, hc3, ht42⟩ := bind_some_elim hc4
  obtain ⟨b2, hc2, he2⟩ := bind_some_elim hc3
  obtain ⟨b1, hc1, ht41⟩ := bind_some_elim hc2
  obtain ⟨b0, ht8, he1⟩ := bind_some_elim hc1
  have l0 := takeHex_length ht8
  have l1 := congrArg List.length (expectChar_eq he1)
  have l2 := takeHex_length ht41
  have l3 := congrArg List.length (expectChar_eq he2)
  have l4 := takeHex_length ht42
  have l5 := congrArg List.length (expectChar_eq he3)
  have l6 := takeHex_length ht43
  have l7 := congrArg List.length (expectChar_eq he4)
  have l8 := takeHex_length ht12
  simp only [List.length_cons] at l1 l3 l5 l7
  omega

theorem matchUUID_head {cs r : List Char} (h : matchUUID cs = some r) :
    ∃ c cs2, cs = c :: cs2 ∧ isHexDigit c = true := by
  cases cs with
  | nil =>
    exact absurd h (by simp [matchUUID, show takeHex 8 ([] : List Char) = none from rfl])
  | cons c cs2 =>
    refine ⟨c, cs2, rfl, ?_⟩
    by_cases hc : isHexDigit c
    · exact hc
    · exact absurd h (by
        simp [matchUUID,
          show takeHex 8 (c :: cs2) = if isHexDigit c then takeHex 7 cs2 else none from rfl, hc])

theorem matchAliasUUID_parts {sep : Char} {s u : String}
    (h : matchAliasUUID sep s = some u) :
    u.data.length = 36 ∧ ∃ c cs2, u.data = c :: cs2 ∧ isHexDigit c = true := by
  unfold matchAliasUUID at h
  obtain ⟨rest, hrest, h⟩ := bind_some_elim h
  split at h
  · rename_i hm
    obtain rfl := Option.some.inj h
    have hl := matchUUID_length hm
    simp only [List.length_nil, Nat.add_zero] at hl
    obtain ⟨c, cs2, hcs, hhex⟩ := matchUUID_head hm
    exact ⟨by simpa using hl, c, cs2, by simpa using hcs, hhex⟩
  · rename_i c0 hm
    split at h
    · obtain rfl := Option.some.inj h
      have hl := matchUUID_length hm
      simp only [List.length_cons, List.length_nil] at hl
      obtain ⟨c, cs2, hcs, hhex⟩ := matchUUID_head hm
      refine ⟨?_, ?_⟩
      · show rest.dropLast.length = 36
        rw [List.length_dropLast]
        omega
      · show ∃ a b2, rest.dropLast = a :: b2 ∧ isHexDigit a = true
        subst hcs
        cases cs2 with
        | nil => simp at hl
        | cons d t => exact ⟨c, (d :: t).dropLast, rfl, hhex⟩
    · exact absurd h (by simp)
  · exact absurd h (by simp)

theorem matchAliasUUID_eq_none_of_head {sep : Char} {s : String} {c : Char} {cs : List Char}
    (hd : s.data = c :: cs) (hc : c ≠ 'w') : matchAliasUUID sep s = none := by
  unfold matchAliasUUID
  rw [hd, expectChar_cons_ne cs hc]
  rfl

theorem normalize_eq_of_not_special {s : String} (h1 : s ≠ "active") (h2 : s ≠ "all") :
    normalize_session_id (some s) =
      match matchAliasUUID ':' s with
      | some u => some u
      | none =>
        match matchAliasUUID '.' s with
        | some u => some u
        | none => some s := by
  show (if s = "active" ∨ s = "all" then some s
    else
      match matchAliasUUID ':' s with
      | some u => some u
      | none =>
        match matchAliasUUID '.' s with
        | some u => some u
        | none => some s) = _
  rw [if_neg (by simp [h1, h2])]

theorem ne_of_length_36 {u : String} (hlen : u.data.length = 36) :
    u ≠ "active" ∧ u ≠ "all" ∧ u ≠ "" := by
  refine ⟨?_, ?_, ?_⟩ <;> (intro h; subst h; exact absurd hlen (by decide))

theorem normalize_of_uuid_shape {u : String} (hlen : u.data.length = 36)
    {c : Char} {cs : List Char} (hd : u.data = c :: cs) (hc : isHexDigit c = true) :
    normalize_session_id (some u) = some u := by
  have hcw : c ≠ 'w' := by
    intro h
    subst h
    exact absurd hc (by decide)
  obtain ⟨h1, h2, _⟩ := ne_of_length_36 hlen
  rw [normalize_eq_of_not_special h1 h2,
    matchAliasUUID_eq_none_of_head hd hcw, matchAliasUUID_eq_none_of_head hd hcw]

theorem dropWhile_digits_append {ds l : List Char}
    (hds : ds.all Char.isDigit = true) :
    (ds ++ l).dropWhile Char.isDigit = l.dropWhile Char.isDigit := by
  induction ds with
  | nil => rfl
  | cons d ds2 ih =>
    rw [List.all_cons, Bool.and_eq_true] at hds
    rw [List.cons_append, List.dropWhile_cons_of_pos hds.1]
    exact ih hds.2

theorem takeDigits1_append {ds l : List Char} {x : Char}
    (hne : ds ≠ []) (hds : ds.all Char.isDigit = true) (hx : x.isDigit = false) :
    takeDigits1 (ds ++ x :: l) = some (x :: l) := by
  cases ds with
  | nil => exact absurd rfl hne
  | cons d ds2 =>
    rw [List.all_cons, Bool.and_eq_true] at hds
    rw [List.cons_append]
    simp only [takeDigits1]
    rw [if_pos hds.1]
    rw [dropWhile_digits_append hds.2]
    rw [List.dropWhile_cons_of_neg (by simp [hx])]

theorem construct_data {a b c u : String} {sep : Char} {sepS : String}
    (hsep : sepS.data = [sep]) :
    ("w" ++ a ++ "t" ++ b ++ "p" ++ c ++ sepS ++ u).data
      = 'w' :: (a.data ++ 't' :: (b.data ++ 'p' :: (c.data ++ sep :: u.data))) := by
  simp [String.data_append, hsep, show ("w" : String).data = ['w'] from rfl,
    show ("t" : String).data = ['t'] from rfl, show ("p" : String).data = ['p'] from rfl,
    List.append_assoc]

theorem matchAliasUUID_construct {a b c u : String} {sep : Char} {sepS : String}
    (hsep : sepS.data = [sep]) (hsepd : sep.isDigit = false)
    (ha : a.data ≠ []) (hb : b.data ≠ []) (hc : c.data ≠ [])
    (hda : a.data.all Char.isDigit = true) (hdb : b.data.all Char.isDigit = true)
    (hdc : c.data.all Char.isDigit = true)
    (hu : matchUUID u.data = some []) :
    matchAliasUUID sep ("w" ++ a ++ "t" ++ b ++ "p" ++ c ++ sepS ++ u) = some u := by
  unfold matchAliasUUID
  rw [construct_data hsep]
  rw [expectChar_cons_self, Option.some_bind,
    takeDigits1_append ha hda (by decide), Option.some_bind,
    expectChar_cons_self, Option.some_bind,
    takeDigits1_append hb hdb (by decide), Option.some_bind,
    expectChar_cons_self, Option.some_bind,
    takeDigits1_append hc hdc hsepd, Option.some_bind,
    expectChar_cons_self]
  simp only [Option.some_bind]
  rw [hu]

theorem matchAliasUUID_construct_other {a b c u : String} {sep sep2 : Char} {sepS : String}
    (hsep : sepS.data = [sep]) (hsepd : sep.isDigit = false) (hne : sep ≠ sep2)
    (ha : a.data ≠ []) (hb : b.data ≠ []) (hc : c.data ≠ [])
    (hda : a.data.all Char.isDigit = true) (hdb : b.data.all Char.isDigit = true)
    (hdc : c.data.all Char.isDigit = true) :
    matchAliasUUID sep2 ("w" ++ a ++ "t" ++ b ++ "p" ++ c ++ sepS ++ u) = none := by
  unfold matchAliasUUID
  rw [construct_data hsep]
  rw [expectChar_cons_self, Option.some_bind,
    takeDigits1_append ha hda (by decide), Option.some_bind,
    expectChar_cons_self, Option.some_bind,
    takeDigits1_append hb hdb (by decide), Option.some_bind,
    expectChar_cons_self, Option.some_bind,
    takeDigits1_append hc hdc hsepd, Option.some_bind,
    expectChar_cons_ne _ hne]
  rfl

theorem normalize_alias_colon {s u : String} (h1 : s ≠ "active") (h2 : s ≠ "all")
    (h : matchAliasUUID ':' s = some u) :
    normalize_session_id (some s) = some u := by
  rw [normalize_eq_of_not_special h1 h2, h]

theorem normalize_alias_dot {s u : String} (h1 : s ≠ "active") (h2 : s ≠ "all")
    (hcolon : matchAliasUUID ':' s = none) (h : matchAliasUUID '.' s = some u) :
    normalize_session_id (some s) = some u := by
  rw [normalize_eq_of_not_special h1 h2, hcolon, h]

theorem normalize_no_match {s : String} (h1 : s ≠ "active") (h2 : s ≠ "all")
    (hcolon : matchAliasUUID ':' s = none) (hdot : matchAliasUUID '.' s = none) :
    normalize_session_id (some s) = some s := by
  rw [normalize_eq_of_not_special h1 h2, hcolon, hdot]

theorem tabs_foldl_eq (ts : List Tab) (acc : List Session) :
    ts.foldl (fun a t => a ++ t.sessions) acc = acc ++ ts.flatMap (fun t => t.sessions) := by
  induction ts generalizing acc with
  | nil => simp
  | cons t ts2 ih =>
    rw [List.foldl_cons, ih, List.flatMap_cons, List.append_assoc]

theorem windows_foldl_eq (ws : List Window) (acc : List Session) :
    ws.foldl (fun a w => w.tabs.foldl (fun a2 t => a2 ++ t.sessions) a) acc
      = acc ++ ws.flatMap (fun w => w.tabs.flatMap fun t => t.sessions) := by
  induction ws generalizing acc with
  | nil => simp
  | cons w ws2 ih =>
    rw [List.foldl_cons, ih, tabs_foldl_eq, List.flatMap_cons, List.append_assoc]

theorem find?_unique {l : List Session} {s : Session} {u : String}
    (hmem : s ∈ l) (hid : s.sessionId = u)
    (huniq : ∀ s2 ∈ l, s2.sessionId = u → s2 = s) :
    l.find? (fun x => x.sessionId == u) = some s := by
  induction l with
  | nil => exact absurd hmem (by simp)
  | cons hd tl ih =>
    by_cases hh : hd.sessionId = u
    · have heq : hd = s := huniq hd (List.mem_cons_self hd tl) hh
      subst heq
      exact List.find?_cons_of_pos _ (by simp [hh])
    · rw [List.find?_cons_of_neg _ (by simp [hh])]
      rcases List.mem_cons.mp hmem with heq | hm2
      · exact absurd (heq ▸ hid) hh
      · exact ih hm2 fun s2 hs2 => huniq s2 (List.mem_cons_of_mem hd hs2)

theorem host_lookup_unique {app : App} {s : Session} {u : String}
    (hmem : s ∈ app.allSessions) (hid : s.sessionId = u)
    (huniq : ∀ s2 ∈ app.allSessions, s2.sessionId = u → s2 = s) :
    app.get_session_by_id u = some s :=
  find?_unique hmem hid huniq

theorem get_session_by_id_of_norm {app : App} {sid n : String} {s : Session}
    (hn : normalize_session_id (some sid) = some n)
    (hs : app.get_session_by_id n = some s) :
    get_session_by_id app (some sid) = some s := by
  show (match normalize_session_id (some sid) with
    | none => none
    | some normalized =>
      match app.get_session_by_id normalized with
      | some s2 => some s2
      | none => if normalized ≠ sid then app.get_session_by_id sid else none) = some s
  simp only [hn, hs]

theorem get_target_sessions_lookup_branch {app : App} {sid : String}
    (h0 : sid ≠ "") (h1 : sid ≠ "active") (h2 : sid ≠ "all") :
    get_target_sessions app (some sid) false =
      match get_session_by_id app (some sid) with
      | none =>
        Except.error ⟨"Error: Session " ++ sq ++ sid ++ sq ++ " not found", 3⟩
      | some s => Except.ok [s] := by
  unfold get_target_sessions
  rw [if_neg (by simp [h2]), if_pos (by simp [strTruthy, h0, h1])]
  rfl

theorem get_target_found {app : App} {sid : String} {s : Session}
    (h0 : sid ≠ "") (h1 : sid ≠ "active") (h2 : sid ≠ "all")
    (hl : get_session_by_id app (some sid) = some s) :
    get_target_sessions app (some sid) false = Except.ok [s] := by
  rw [get_target_sessions_lookup_branch h0 h1 h2, hl]

theorem get_target_notfound {app : App} {sid : String}
    (h0 : sid ≠ "") (h1 : sid ≠ "active") (h2 : sid ≠ "all")
    (hl : get_session_by_id app (some sid) = none) :
    get_target_sessions app (some sid) false =
      Except.error ⟨"Error: Session " ++ sq ++ sid ++ sq ++ " not found", 3⟩ := by
  rw [get_target_sessions_lookup_branch h0 h1 h2, hl]

theorem construct_ne_special {a b c u : String} {sep : Char} {sepS : String}
    (hsep : sepS.data = [sep]) :
    ("w" ++ a ++ "t" ++ b ++ "p" ++ c ++ sepS ++ u) ≠ "active"
    ∧ ("w" ++ a ++ "t" ++ b ++ "p" ++ c ++ sepS ++ u) ≠ "all"
    ∧ ("w" ++ a ++ "t" ++ b ++ "p" ++ c ++ sepS ++ u) ≠ "" := by
  refine ⟨fun h => ?_, fun h => ?_, fun h => ?_⟩ <;>
    (have hd := congrArg String.data h; rw [construct_data hsep] at hd)
  · rw [show ("active" : String).data = ['a', 'c', 't', 'i', 'v', 'e'] from rfl] at hd
    injection hd with h1 _
    exact absurd h1 (by decide)
  · rw [show ("all" : String).data = ['a', 'l', 'l'] from rfl] at hd
    injection hd with h1 _
    exact absurd h1 (by decide)
  · rw [show ("" : String).data = [] from rfl] at hd
    exact List.cons_ne_nil _ _ hd

/-- C1: `normalize_session_id` satisfies the normalizer contract. Null maps to
null; `"active"` and `"all"` are returned unchanged; an input of the
environment-variable alias form `w<digits>t<digits>p<digits>:<UUID>` or the
term-ID alias form `w<digits>t<digits>p<digits>.<UUID>` (UUID being the
8-4-4-4-12 case-insensitive hex pattern) yields the captured UUID; every input
matching neither a keyword nor an alias pattern is returned unchanged. -/
theorem C1_normalizer_contract :
    normalize_session_id none = none
  ∧ normalize_session_id (some "active") = some "active"
  ∧ normalize_session_id (some "all") = some "all"
  ∧ (∀ a b c u : String, a.data ≠ [] → b.data ≠ [] → c.data ≠ [] →
      a.data.all Char.isDigit = true → b.data.all Char.isDigit = true →
      c.data.all Char.isDigit = true → matchUUID u.data = some [] →
      normalize_session_id (some ("w" ++ a ++ "t" ++ b ++ "p" ++ c ++ ":" ++ u)) = some u
      ∧ normalize_session_id (some ("w" ++ a ++ "t" ++ b ++ "p" ++ c ++ "." ++ u)) = some u)
  ∧ (∀ s : String, s ≠ "active" → s ≠ "all" → matchAliasUUID ':' s = none →
      matchAliasUUID '.' s = none → normalize_session_id (some s) = some s) := by
  refine ⟨rfl, rfl, rfl, ?_, ?_⟩
  · intro a b c u ha hb hc hda hdb hdc hu
    have hcolon := matchAliasUUID_construct (u := u)
      (show (":" : String).data = [':'] from rfl) (by decide) ha hb hc hda hdb hdc hu
    have hdot := matchAliasUUID_construct (u := u)
      (show ("." : String).data = ['.'] from rfl) (by decide) ha hb hc hda hdb hdc hu
    have hcd : matchAliasUUID ':' ("w" ++ a ++ "t" ++ b ++ "p" ++ c ++ "." ++ u) = none :=
      matchAliasUUID_construct_other (show ("." : String).data = ['.'] from rfl)
        (by decide) (by decide) ha hb hc hda hdb hdc
    obtain ⟨hc1, hc2, _⟩ := construct_ne_special (a := a) (b := b) (c := c) (u := u)
      (show (":" : String).data = [':'] from rfl)
    obtain ⟨hd1, hd2, _⟩ := construct_ne_special (a := a) (b := b) (c := c) (u := u)
      (show ("." : String).data = ['.'] from rfl)
    exact ⟨normalize_alias_colon hc1 hc2 hcolon, normalize_alias_dot hd1 hd2 hcd hdot⟩
  · intro s h1 h2 hcolon hdot
    exact normalize_no_match h1 h2 hcolon hdot

/-- C1 witness: the contract applied to the concrete alias
`w0t0p0:12345678-1234-5678-1234-567812345678`. -/
theorem C1_normalizer_contract_witness :
    normalize_session_id (some "w0t0p0:12345678-1234-5678-1234-567812345678")
      = some "12345678-1234-5678-1234-567812345678" :=
  (C1_normalizer_contract.2.2.2.1 "0" "0" "0" "12345678-1234-5678-1234-567812345678"
    (by decide) (by decide) (by decide) (by decide) (by decide) (by decide) (by decide)).1

/-- C2: `normalize_session_id` is idempotent on every input, including null, the
keywords, alias forms, bare UUIDs and arbitrary opaque strings. -/
theorem C2_normalize_idempotent (x : Option String) :
    normalize_session_id (normalize_session_id x) = normalize_session_id x := by
  match x with
  | none => rfl
  | some s =>
    by_cases hs : s = "active" ∨ s = "all"
    · have h1 : normalize_session_id (some s) = some s := by
        rcases hs with rfl | rfl <;> rfl
      rw [h1, h1]
    · rw [not_or] at hs
      obtain ⟨h1, h2⟩ := hs
      cases hc : matchAliasUUID ':' s with
      | some u =>
        have hn := normalize_alias_colon h1 h2 hc
        rw [hn]
        obtain ⟨hlen, ch, cs, hdd, hhex⟩ := matchAliasUUID_parts hc
        exact normalize_of_uuid_shape hlen hdd hhex
      | none =>
        cases hd : matchAliasUUID '.' s with
        | some u =>
          have hn := normalize_alias_dot h1 h2 hc hd
          rw [hn]
          obtain ⟨hlen, ch, cs, hdd, hhex⟩ := matchAliasUUID_parts hd
          exact normalize_of_uuid_shape hlen hdd hhex
        | none =>
          have hn := normalize_no_match h1 h2 hc hd
          rw [hn, hn]

/-- C3: when the all flag is set or the id is `"all"`, `get_target_sessions`
returns every session of every tab of every window, in window order, then tab
order, then session order, as a success value and never an error. -/
theorem C3_all_flatten (app : App) (sid : Option String) (allFlag : Bool)
    (h : allFlag = true ∨ sid = some "all") :
    get_target_sessions app sid allFlag = Except.ok app.allSessions := by
  unfold get_target_sessions
  rw [if_pos (by rcases h with h | h <;> simp [h]), windows_foldl_eq]
  rfl

/-- C3 witness: the flatten rule applied to the empty hierarchy under the all
flag; the result is the empty list and not an error. -/
theorem C3_all_flatten_witness :
    get_target_sessions ⟨[], none⟩ none true = Except.ok (App.allSessions ⟨[], none⟩) :=
  C3_all_flatten ⟨[], none⟩ none true (Or.inl rfl)

/-- C5: with no id, or the id `"active"`, and the all flag unset, the resolver
walks active window, then active tab, then active session, failing with the
first applicable condition in that fixed order, and on success returns the
single active session. -/
theorem C5_active_path (app : App) (sid : Option String)
    (h : sid = none ∨ sid = some "active") :
    (app.current_terminal_window = none →
      get_target_sessions app sid false = Except.error ⟨"Error: No active window found", 3⟩)
  ∧ (∀ w, app.current_terminal_window = some w → w.current_tab = none →
      get_target_sessions app sid false = Except.error ⟨"Error: No active tab found", 3⟩)
  ∧ (∀ w t, app.current_terminal_window = some w → w.current_tab = some t →
      t.current_session = none →
      get_target_sessions app sid false = Except.error ⟨"Error: No active session found", 3⟩)
  ∧ (∀ w t s, app.current_terminal_window = some w → w.current_tab = some t →
      t.current_session = some s →
      get_target_sessions app sid false = Except.ok [s]) := by
  have hbr : get_target_sessions app sid false =
      match app.current_terminal_window with
      | none => Except.error ⟨"Error: No active window found", 3⟩
      | some w =>
        match w.current_tab with
        | none => Except.error ⟨"Error: No active tab found", 3⟩
        | some t =>
          match t.current_session with
          | none => Except.error ⟨"Error: No active session found", 3⟩
          | some s => Except.ok [s] := by
    rcases h with rfl | rfl
    · rfl
    · unfold get_target_sessions
      rw [if_neg (by simp), if_neg (by simp)]
  refine ⟨?_, ?_, ?_, ?_⟩
  · intro hw
    simp only [hbr, hw]
  · intro w hw ht
    simp only [hbr, hw, ht]
  · intro w t hw ht hs
    simp only [hbr, hw, ht, hs]
  · intro w t s hw ht hs
    simp only [hbr, hw, ht, hs]

/-- C5 witness: with id "active" over a hierarchy with no active window, the
resolver fails with the no-active-window condition. -/
theorem C5_active_path_witness :
    get_target_sessions ⟨[], none⟩ (some "active") false
      = Except.error ⟨"Error: No active window found", 3⟩ :=
  (C5_active_path ⟨[], none⟩ (some "active") (Or.inr rfl)).1 rfl

/-- C9: the empty-string id with the all flag unset behaves exactly as the
active-session default mode and never takes the not-found lookup path. -/
theorem C9_empty_id_active_mode (app : App) :
    get_target_sessions app (some "") false = get_target_sessions app none false
  ∧ get_target_sessions app (some "") false ≠
      Except.error ⟨"Error: Session " ++ sq ++ "" ++ sq ++ " not found", 3⟩ := by
  constructor
  · rfl
  · intro hcon
    cases hw : app.current_terminal_window with
    | none =>
      rw [show get_target_sessions app (some "") false =
          match app.current_terminal_window with
          | none => Except.error ⟨"Error: No active window found", 3⟩
          | some w =>
            match w.current_tab with
            | none => Except.error ⟨"Error: No active tab found", 3⟩
            | some t =>
              match t.current_session with
              | none => Except.error ⟨"Error: No active session found", 3⟩
              | some s => Except.ok [s] from rfl] at hcon
      simp only [hw] at hcon
      injection hcon with h9
      injection h9 with hmsg _
      exact absurd hmsg (by decide)
    | some w =>
      rw [show get_target_sessions app (some "") false =
          match app.current_terminal_window with
          | none => Except.error ⟨"Error: No active window found", 3⟩
          | some w2 =>
            match w2.current_tab with
            | none => Except.error ⟨"Error: No active tab found", 3⟩
            | some t =>
              match t.current_session with
              | none => Except.error ⟨"Error: No active session found", 3⟩
              | some s => Except.ok [s] from rfl] at hcon
      simp only [hw] at hcon
      cases ht : w.current_tab with
      | none =>
        simp only [ht] at hcon
        injection hcon with h9
        injection h9 with hmsg _
        exact absurd hmsg (by decide)
      | some t =>
        simp only [ht] at hcon
        cases hs : t.current_session with
        | none =>
          simp only [hs] at hcon
          injection hcon with h9
          injection h9 with hmsg _
          exact absurd hmsg (by decide)
        | some s =>
          simp only [hs] at hcon
          exact Except.noConfusion hcon

/-- C4 counterexample: the empty string is a non-null id different from
`"active"` and `"all"` whose lookup yields nothing, yet the resolver does not
produce the session-not-found condition for it; over an empty hierarchy it
fails with the no-active-window condition instead. -/
theorem C4_counterexample :
    get_session_by_id ⟨[], none⟩ (some "") = none
  ∧ get_target_sessions ⟨[], none⟩ (some "") false
      ≠ Except.error ⟨"Error: Session " ++ sq ++ "" ++ sq ++ " not found", 3⟩
  ∧ get_target_sessions ⟨[], none⟩ (some "") false
      = Except.error ⟨"Error: No active window found", 3⟩ := by
  refine ⟨rfl, ?_, rfl⟩
  intro hcon
  rw [show get_target_sessions ⟨[], none⟩ (some "") false
      = Except.error ⟨"Error: No active window found", 3⟩ from rfl] at hcon
  injection hcon with h9
  injection h9 with hmsg _
  exact absurd hmsg (by decide)

/-- C4 amended: for every nonempty id different from `"active"` and `"all"`
(with the all flag unset), the resolver resolves via the lookup helper; a
failed lookup yields the session-not-found error with exit code 3 whose message
contains the literal requested id, and a successful lookup returns exactly that
session in a one-element list. -/
theorem C4_lookup_mode (app : App) (sid : String)
    (h0 : sid ≠ "") (h1 : sid ≠ "active") (h2 : sid ≠ "all") :
    (get_session_by_id app (some sid) = none →
      get_target_sessions app (some sid) false =
        Except.error ⟨"Error: Session " ++ sq ++ sid ++ sq ++ " not found", 3⟩
      ∧ ∃ pre post, "Error: Session " ++ sq ++ sid ++ sq ++ " not found" = pre ++ sid ++ post)
  ∧ ∀ s, get_session_by_id app (some sid) = some s →
      get_target_sessions app (some sid) false = Except.ok [s] := by
  constructor
  · intro hl
    refine ⟨get_target_notfound h0 h1 h2 hl, "Error: Session " ++ sq, sq ++ " not found", ?_⟩
    rw [String.append_assoc]
  · intro s hl
    exact get_target_found h0 h1 h2 hl

/-- C4 witness: the not-found branch at the concrete id "nonexistent-id" over
the empty hierarchy. -/
theorem C4_lookup_mode_witness :
    get_target_sessions ⟨[], none⟩ (some "nonexistent-id") false =
      Except.error ⟨"Error: Session " ++ sq ++ "nonexistent-id" ++ sq ++ " not found", 3⟩ :=
  ((C4_lookup_mode ⟨[], none⟩ "nonexistent-id" (by decide) (by decide) (by decide)).1 rfl).1

theorem get_session_by_id_eq (app : App) (sid n : String)
    (hn : normalize_session_id (some sid) = some n) :
    get_session_by_id app (some sid) =
      match app.get_session_by_id n with
      | some s => some s
      | none => if n ≠ sid then app.get_session_by_id sid else none := by
  show (match normalize_session_id (some sid) with
    | none => none
    | some normalized =>
      match app.get_session_by_id normalized with
      | some s2 => some s2
      | none => if normalized ≠ sid then app.get_session_by_id sid else none) = _
  rw [hn]

theorem get_session_by_id_queries_eq (app : App) (sid n : String)
    (hn : normalize_session_id (some sid) = some n) :
    get_session_by_id_queries app (some sid) =
      match app.get_session_by_id n with
      | some _ => [n]
      | none => if n ≠ sid then [n, sid] else [n] := by
  show (match normalize_session_id (some sid) with
    | none => []
    | some normalized =>
      match app.get_session_by_id normalized with
      | some _ => [normalized]
      | none => if normalized ≠ sid then [normalized, sid] else [normalized]) = _
  rw [hn]

/-- C6: the lookup helper queries the host accessor with the normalized id
first; if that fails and the normalized value differs from the original input
it retries exactly once with the original; if they are equal no second query is
made; and when every attempted query fails it returns null, not an error. -/
theorem C6_lookup_fallback (app : App) (sid n : String)
    (hn : normalize_session_id (some sid) = some n) :
    (∀ s, app.get_session_by_id n = some s →
      get_session_by_id app (some sid) = some s
      ∧ get_session_by_id_queries app (some sid) = [n])
  ∧ (app.get_session_by_id n = none → n ≠ sid →
      get_session_by_id app (some sid) = app.get_session_by_id sid
      ∧ get_session_by_id_queries app (some sid) = [n, sid])
  ∧ (app.get_session_by_id n = none → n = sid →
      get_session_by_id app (some sid) = none
      ∧ get_session_by_id_queries app (some sid) = [n])
  ∧ (app.get_session_by_id n = none → app.get_session_by_id sid = none →
      get_session_by_id app (some sid) = none) := by
  refine ⟨?_, ?_, ?_, ?_⟩
  · intro s hs
    constructor
    · simp only [get_session_by_id_eq app sid n hn, hs]
    · simp only [get_session_by_id_queries_eq app sid n hn, hs]
  · intro hnone hne
    constructor
    · simp only [get_session_by_id_eq app sid n hn, hnone]
      rw [if_pos hne]
    · simp only [get_session_by_id_queries_eq app sid n hn, hnone]
      rw [if_pos hne]
  · intro hnone heq
    constructor
    · simp only [get_session_by_id_eq app sid n hn, hnone]
      rw [if_neg (not_not_intro heq)]
    · simp only [get_session_by_id_queries_eq app sid n hn, hnone]
      rw [if_neg (not_not_intro heq)]
  · intro hnone hnone2
    simp only [get_session_by_id_eq app sid n hn, hnone]
    by_cases hne : n ≠ sid
    · rw [if_pos hne]
      exact hnone2
    · rw [if_neg hne]

/-- C6 witness: over the empty hierarchy, looking up the alias form queries the
normalized UUID first and then, since normalization changed the input, the
original alias once. -/
theorem C6_lookup_fallback_witness :
    get_session_by_id_queries ⟨[], none⟩ (some demoAlias)
      = ["12345678-1234-5678-1234-567812345678", demoAlias] :=
  ((C6_lookup_fallback ⟨[], none⟩ demoAlias "12345678-1234-5678-1234-567812345678"
    (by decide)).2.1 rfl (by decide)).2

/-- C7: when the hierarchy contains (uniquely) a session whose identifier is
the UUID u, the resolver returns exactly that session as a one-element list for
the bare UUID id, for the environment-variable alias form and for the term-ID
alias form carrying u. -/
theorem C7_alias_resolution (app : App) (u : String) (s : Session) (a b c : String)
    (hu : matchUUID u.data = some [])
    (hmem : s ∈ app.allSessions) (hid : s.sessionId = u)
    (huniq : ∀ s2 ∈ app.allSessions, s2.sessionId = u → s2 = s)
    (ha : a.data ≠ []) (hb : b.data ≠ []) (hc : c.data ≠ [])
    (hda : a.data.all Char.isDigit = true) (hdb : b.data.all Char.isDigit = true)
    (hdc : c.data.all Char.isDigit = true) :
    get_target_sessions app (some u) false = Except.ok [s]
  ∧ get_target_sessions app (some ("w" ++ a ++ "t" ++ b ++ "p" ++ c ++ ":" ++ u)) false
      = Except.ok [s]
  ∧ get_target_sessions app (some ("w" ++ a ++ "t" ++ b ++ "p" ++ c ++ "." ++ u)) false
      = Except.ok [s] := by
  have hlookup : app.get_session_by_id u = some s := host_lookup_unique hmem hid huniq
  have hulen : u.data.length = 36 := by
    have h36 := matchUUID_length hu
    simpa using h36
  obtain ⟨hu1, hu2, hu3⟩ := ne_of_length_36 hulen
  obtain ⟨ch, cs2, hdd, hhex⟩ := matchUUID_head hu
  have hnormu : normalize_session_id (some u) = some u :=
    normalize_of_uuid_shape hulen hdd hhex
  refine ⟨?_, ?_, ?_⟩
  · exact get_target_found hu3 hu1 hu2 (get_session_by_id_of_norm hnormu hlookup)
  · have hcolon := matchAliasUUID_construct (u := u)
      (show (":" : String).data = [':'] from rfl) (by decide) ha hb hc hda hdb hdc hu
    obtain ⟨hs1, hs2, hs3⟩ := construct_ne_special (a := a) (b := b) (c := c) (u := u)
      (show (":" : String).data = [':'] from rfl)
    exact get_target_found hs3 hs1 hs2
      (get_session_by_id_of_norm (normalize_alias_colon hs1 hs2 hcolon) hlookup)
  · have hdot := matchAliasUUID_construct (u := u)
      (show ("." : String).data = ['.'] from rfl) (by decide) ha hb hc hda hdb hdc hu
    have hcd : matchAliasUUID ':' ("w" ++ a ++ "t" ++ b ++ "p" ++ c ++ "." ++ u) = none :=
      matchAliasUUID_construct_other (show ("." : String).data = ['.'] from rfl)
        (by decide) (by decide) ha hb hc hda hdb hdc
    obtain ⟨hs1, hs2, hs3⟩ := construct_ne_special (a := a) (b := b) (c := c) (u := u)
      (show ("." : String).data = ['.'] from rfl)
    exact get_target_found hs3 hs1 hs2
      (get_session_by_id_of_norm (normalize_alias_dot hs1 hs2 hcd hdot) hlookup)

/-- C7 witness: the alias `w0t0p0:<uuid>` resolves to the one session of the
demo hierarchy. -/
theorem C7_alias_resolution_witness :
    get_target_sessions demoApp (some demoAlias) false = Except.ok [demoSession] :=
  (C7_alias_resolution demoApp "12345678-1234-5678-1234-567812345678" demoSession "0" "0" "0"
    (by decide) (by decide) rfl (by decide) (by decide) (by decide) (by decide)
    (by decide) (by decide) (by decide)).2.1

/-- C8: the profile apply command passes its session option directly to the
host accessor without normalization, so the alias form that the target resolver
accepts (returning the aliased session) makes profile apply fail with its
session-not-found error instead: the claim that every such subcommand routes
the value through the resolver contradicts the code. -/
theorem C8_profile_apply_divergence :
    profile_apply_target demoApp (some demoAlias)
      = Except.error (handle_error ("Session " ++ sq ++ demoAlias ++ sq ++ " not found") 3)
  ∧ get_target_sessions demoApp (some demoAlias) false = Except.ok [demoSession] :=
  ⟨rfl, rfl⟩

/-- C10 counterexample: "+1+1+1" does not consist of three two-digit
hexadecimal bytes, yet `_parse_color` accepts it and returns Color 1 1 1
(Python parses "+1" in base 16 as 1) instead of raising ValueError. -/
theorem C10_counterexample :
    claimHexColorForm "+1+1+1" = false
  ∧ _parse_color "+1+1+1" = Except.ok ⟨1, 1, 1⟩ :=
  ⟨rfl, rfl⟩

/-- C10 amended: `_parse_color` accepts exactly the strings that, after
removing one optional leading hash, consist of six characters whose three
two-character groups are each accepted by base-16 integer parsing (two hex
digits, or one hex digit with a leading sign or one whitespace character of
padding), returning the Color with the parsed components; every other string
raises ValueError. -/
theorem C10_parse_color_spec (s : String) :
    exceptToOption (_parse_color s) = amendedColorSpec s := by
  simp only [_parse_color, amendedColorSpec]
  rcases hcs : (if startsWithHash s then s.drop 1 else s).data with
    _ | ⟨a, _ | ⟨b, _ | ⟨c, _ | ⟨d, _ | ⟨e, _ | ⟨f, _ | ⟨g, t⟩⟩⟩⟩⟩⟩⟩
  · rfl
  · rfl
  · rfl
  · rfl
  · rfl
  · rfl
  · show exceptToOption (
        match pyIntHex2 a b with
        | none => Except.error (intErrMsg (String.mk [a, b]))
        | some r =>
          match pyIntHex2 c d with
          | none => Except.error (intErrMsg (String.mk [c, d]))
          | some g =>
            match pyIntHex2 e f with
            | none => Except.error (intErrMsg (String.mk [e, f]))
            | some bl => Except.ok ⟨r, g, bl⟩) =
      (do
        let r ← pyIntHex2 a b
        let g ← pyIntHex2 c d
        let bl ← pyIntHex2 e f
        pure ⟨r, g, bl⟩)
    cases pyIntHex2 a b with
    | none => rfl
    | some r =>
      cases pyIntHex2 c d with
      | none => rfl
      | some g =>
        cases pyIntHex2 e f with
        | none => rfl
        | some bl => rfl
  · rfl

end It2
